import Mathlib

/-!
Shallow embedding of the CAS gateway authentication strategy of
`kth-node-passport-cas` (files `cas-gateway-strategy.js` and
`routeHandlers.js`), together with proofs about the embedded code.

Modelling conventions:
* JavaScript values reachable by the XML-walking helpers (`_prop`, `_head`)
  are embedded as the inductive `JsVal`, with JavaScript truthiness made
  explicit (`JsVal.truthy`).
* Node's legacy `url` module is embedded structurally: a parsed URL object is
  a `UrlObj` holding the non-query part (`base` = protocol + host + pathname),
  the raw `search` string when present, and the parsed `query` key/value list.
  `url.format` prefers `search` over `query`, exactly as Node does; percent
  encoding is modelled as the identity, since no proved statement depends on
  escaping.
* Injected dependencies (`request`, `xml2js.parseString`, the application
  `verify` callback) are passed to the embedded functions as function
  arguments; a transport or parser failure is an `Except.error` carrying the
  error's message.
* Session state is the single field `gatewayAttempts`, absent (`none`) or an
  integer, mirroring the `req.session` usage in the source.
-/

/-- JavaScript values as seen by the CAS XML response walker. -/
inductive JsVal where
  | null : JsVal
  | str : String → JsVal
  | arr : List JsVal → JsVal
  | obj : List (String × JsVal) → JsVal

namespace JsVal

/-- JavaScript truthiness: `undefined`/`null` and `""` are falsy; every
array and object is truthy. -/
def truthy : JsVal → Bool
  | .null => false
  | .str s => s ≠ ""
  | .arr _ => true
  | .obj _ => true

mutual

/-- `String(v)` as used by `new Error(failure)`: strings pass through,
arrays join their elements with commas, plain objects print as
`[object Object]`. -/
def jsToString : JsVal → String
  | .null => "null"
  | .str s => s
  | .arr xs => jsToStringList xs
  | .obj _ => "[object Object]"

/-- `Array.prototype.toString`: elements joined with commas. -/
def jsToStringList : List JsVal → String
  | [] => ""
  | [x] => jsToString x
  | x :: xs => jsToString x ++ "," ++ jsToStringList xs

end

/-- Raw JavaScript property access `obj[key]`: only plain objects yield their
fields; indexing a string, array or null with these (non-numeric) keys gives
`undefined`, embedded as `.null`. -/
def get1 : JsVal → String → JsVal
  | .obj fields, key => (fields.lookup key).getD .null
  | _, _ => .null

end JsVal

/-- `_prop(obj, key)` (cas-gateway-strategy.js lines 180-186): the property
value when both the receiver and the value are truthy, otherwise `null`. -/
def _prop (v : JsVal) (key : String) : JsVal :=
  if v.truthy ∧ (v.get1 key).truthy then v.get1 key else .null

/-- `_head(array)` (cas-gateway-strategy.js lines 172-178): first element when
the argument is truthy and has a truthy `.length`.  Arrays yield their head;
a non-empty string `s` has `s.length` truthy and `s[0]` is its first
character; objects and `null` have no `.length` and yield `null`. -/
def _head : JsVal → JsVal
  | .arr (x :: _) => x
  | .str s => if s = "" then .null else .str (s.take 1)
  | _ => .null

/-- A parsed URL object in the style of Node's legacy `url.parse(s, true)`:
`base` is protocol + host + pathname, `search` the raw query string (with its
leading `?`) when one is present, `query` the parsed key/value pairs. -/
structure UrlObj where
  base : String
  search : Option String
  query : List (String × String)
deriving Repr, DecidableEq

/-- `querystring.stringify` body: `key=value` pairs joined with `&` (an
`undefined` value has already been replaced by `""`, as `stringify`
serialises it). -/
def joinPairs : List (String × String) → String
  | [] => ""
  | [p] => p.1 ++ "=" ++ p.2
  | p :: ps => p.1 ++ "=" ++ p.2 ++ "&" ++ joinPairs ps

/-- A stringified query with the leading `?` that `url.format` adds for a
non-empty query. -/
def formatQuery : List (String × String) → String
  | [] => ""
  | ps => "?" ++ joinPairs ps

/-- `url.format`: when a `search` string is set it wins over `query`;
otherwise the query list is stringified. -/
def formatUrl (u : UrlObj) : String :=
  u.base ++ match u.search with
    | some s => s
    | none => formatQuery u.query

/-- The characters before the first `/`: the host part of what follows the
scheme separator. -/
def hostPart : List Char → List Char
  | [] => []
  | c :: cs => if c = '/' then [] else c :: hostPart cs

/-- Split a character list at the first `://` occurrence into the scheme
characters and the remainder. -/
def splitScheme : List Char → Option (List Char × List Char)
  | [] => none
  | ':' :: '/' :: '/' :: rest => some ([], rest)
  | c :: cs => (splitScheme cs).map fun p => (c :: p.1, p.2)

/-- The origin (protocol + `://` + host) of an absolute URL string, empty for
a string without a scheme (as `url.resolve(base, '/p')` keeps no host from a
host-less base). -/
def urlOrigin (s : String) : String :=
  match splitScheme s.data with
  | some (scheme, rest) => ⟨scheme⟩ ++ "://" ++ ⟨hostPart rest⟩
  | none => ""

/-- `url.resolve(casUrl, path)` for a root-absolute `path`: keeps only the
origin of `casUrl` and replaces path, search and query. -/
def urlResolve (casUrl : String) (path : String) : UrlObj :=
  { base := urlOrigin casUrl ++ path, search := none, query := [] }

/-- The fields the constructor stores on a `GatewayStrategy` instance.  The
injected callables (`verify`, `parseCasXml`, `request`) are not stored here;
the embedded `authenticate`/`validateService` receive them as arguments. -/
structure Strategy where
  name : String
  anonymous : String
  maxAttempts : Int
  casUrl : String
  loginUrl : UrlObj
  serviceValidateUrl : UrlObj
deriving Repr, DecidableEq

/-- Constructor options.  For the injected callables only what the `typeof`
checks can observe is kept: `none` models an absent-or-falsy option (replaced
by the callable default via `||`), `some b` a provided truthy value that is a
function iff `b`.  `anonymous` is a provided string or absent (a truthy
non-string `anonymous` is not representable here; no claim touches it, and the
`typeof this.anonymous` check therefore always passes in this model). -/
structure Options where
  casUrl : String
  parseCasXmlFn : Option Bool := none
  requestFn : Option Bool := none
  maxAttempts : Option Int := none
  anonymous : Option String := none

/-- JavaScript `x || d` over an optional number: absent and `0` are falsy. -/
def jsOrInt (v : Option Int) (d : Int) : Int :=
  match v with
  | some n => if n = 0 then d else n
  | none => d

/-- JavaScript `x || d` over an optional string: absent and `""` are falsy. -/
def jsOrStr (v : Option String) (d : String) : String :=
  match v with
  | some s => if s = "" then d else s
  | none => d

/-- The `GatewayStrategy` constructor (cas-gateway-strategy.js lines 17-68):
field defaulting via `||`, then the `typeof` guards in source order, each
`throw new TypeError(...)` embedded as `Except.error` with the thrown
message. -/
def mkGatewayStrategy (options : Options) (verifyIsFunction : Bool) :
    Except String Strategy :=
  let anonymous := jsOrStr options.anonymous "anonymous-user"
  let maxAttempts := jsOrInt options.maxAttempts 2
  if ¬ verifyIsFunction then
    .error "GatewayStrategy requires a verify callback"
  else if options.parseCasXmlFn.getD true = false then
    .error "GatewayStrategy requires xml2js"
  else if options.requestFn.getD true = false then
    .error "GatewayStrategy requires request"
  else if maxAttempts < 1 then
    .error "GatewayStrategy requires a positive number for max attempts"
  else if options.casUrl = "" then
    .error "GatewayStrategy requires a CAS URL"
  else
    .ok { name := "cas-gateway"
          anonymous := anonymous
          maxAttempts := maxAttempts
          casUrl := options.casUrl
          loginUrl := urlResolve options.casUrl "/login"
          serviceValidateUrl := urlResolve options.casUrl "/serviceValidate" }

/-- The request fields `authenticate` reads: `req.protocol`, the `host`
header, and the parsed query of `req.originalUrl` (pathname separated from
the query string). -/
structure Req where
  protocol : String
  host : String
  pathname : String
  query : List (String × String)
deriving Repr, DecidableEq

/-- `req.originalUrl`: pathname plus the original search string. -/
def Req.originalUrl (req : Req) : String :=
  req.pathname ++ formatQuery req.query

/-- The service URL string built at cas-gateway-strategy.js line 75:
`req.protocol + '://' + req.get('host') + req.originalUrl`. -/
def Req.serviceUrlString (req : Req) : String :=
  req.protocol ++ "://" ++ req.host ++ req.originalUrl

/-- `url.parse(req.serviceUrlString, true)`: the parse of the service URL
string recovers the request's structure. -/
def Req.serviceUrlObj (req : Req) : UrlObj :=
  { base := req.protocol ++ "://" ++ req.host ++ req.pathname
    search := if req.query = [] then none else some (formatQuery req.query)
    query := req.query }

/-- Session state: `req.session.gatewayAttempts`, absent or a number. -/
structure Session where
  gatewayAttempts : Option Int
deriving Repr, DecidableEq

/-- Truthiness of an optional query-string value: absent and `""` are
falsy (`if (!ticket)`). -/
def optTruthy : Option String → Bool
  | none => false
  | some s => s ≠ ""

/-- The three control-flow exits of `authenticate`: `this.success(user)`,
`this.redirect(url)`, or the tail call into `this.validateService`. -/
inductive AuthAction where
  | success (user : String)
  | redirect (url : String)
  | validate (ticket : String) (serviceUrl : UrlObj)
deriving Repr, DecidableEq

/-- `GatewayStrategy.prototype.authenticate` (cas-gateway-strategy.js lines
72-101), returning the chosen action together with the session as left behind.
The ceiling test at line 78 compares `req.session.gatewayAttempts === 2`
against the literal `2`, not against `this.maxAttempts`. -/
def authenticate (strat : Strategy) (req : Req) (session : Session) :
    AuthAction × Session :=
  let ticket := req.query.lookup "ticket"
  let serviceUrl := req.serviceUrlString
  if ¬ optTruthy ticket then
    if session.gatewayAttempts = some 2 then
      (.success strat.anonymous, session)
    else
      let loginUrl : UrlObj :=
        { strat.loginUrl with
          search := none
          query := [("gateway", "true"), ("service", serviceUrl)] }
      let attempts : Int := match session.gatewayAttempts with
        | none => 1
        | some k => if k = 0 then 1 else k + 1
      (.redirect (formatUrl loginUrl), { gatewayAttempts := some attempts })
  else
    (.validate (ticket.getD "") req.serviceUrlObj, { gatewayAttempts := some 0 })

/-- `GatewayStrategy.prototype.parseResponse` (cas-gateway-strategy.js lines
147-170), given the outcome of the injected `parseCasXml` callback: either a
parser error (propagated unchanged) or a parsed document.  Returns the
argument pair of the final `callback` call: an error message or the extracted
username value. -/
def parseResponse (parsed : Except String JsVal) : Except String JsVal :=
  match parsed with
  | .error e => .error e
  | .ok result =>
    let response := _prop result "cas:serviceResponse"
    if ¬ response.truthy then
      .error "Badly formatted response"
    else
      let failure := _prop (_head (_prop response "cas:authenticationFailure")) "_"
      if failure.truthy then
        .error failure.jsToString
      else
        let username :=
          _head (_prop (_head (_prop response "cas:authenticationSuccess")) "cas:user")
        if username.truthy then
          .ok username
        else
          .error "No username found"

/-- The argument object `{ status: true, user: username, ticket: ticket }`
handed to the application `verify` callback. -/
structure IdentityResult where
  status : Bool
  user : JsVal
  ticket : String

/-- The `(err, user, info)` triple the application `verify` callback passes to
`verified`. -/
structure VerifyOut where
  err : Option String
  user : JsVal
  info : JsVal

/-- The three passport outcomes a validation can end in: `this.error(err)`,
`this.fail(info)`, `this.success(user, info)`. -/
inductive AuthOutcome where
  | error (e : String)
  | fail (info : JsVal)
  | success (user : JsVal) (info : JsVal)

/-- `GatewayStrategy.prototype.verified` (cas-gateway-strategy.js lines
135-145). -/
def verified (v : VerifyOut) : AuthOutcome :=
  match v.err with
  | some e => .error e
  | none => if ¬ v.user.truthy then .fail v.info else .success v.user v.info

/-- The service URL rebuilt at cas-gateway-strategy.js lines 106-110: parse,
`delete parsedServiceUrl.search`, and replace the query with the single
`nextUrl` key.  When the original URL carried no `nextUrl` parameter the
value is `undefined`, which `querystring.stringify` serialises as the empty
value `nextUrl=`. -/
def rebuiltServiceUrl (u : UrlObj) : UrlObj :=
  { base := u.base
    search := none
    query := [("nextUrl", (u.query.lookup "nextUrl").getD "")] }

/-- The validation request URL built at cas-gateway-strategy.js lines
104-115: `this.serviceValidateUrl` with its query replaced by `ticket` and
the reformatted service URL. -/
def validationRequestUrl (strat : Strategy) (ticket : String) (u : UrlObj) :
    UrlObj :=
  { strat.serviceValidateUrl with
    query := [("ticket", ticket), ("service", formatUrl (rebuiltServiceUrl u))] }

/-- `GatewayStrategy.prototype.validateService` (cas-gateway-strategy.js
lines 103-133): issue the GET (the injected `request`, embedded as a function
from the request URL to a transport error or a body), parse the body with the
injected `parseCasXml`, and on success hand the identity to the injected
application `verify` callback, whose triple goes through `verified`. -/
def validateService (strat : Strategy) (ticket : String) (serviceUrl : UrlObj)
    (transport : String → Except String String)
    (parseCasXml : String → Except String JsVal)
    (verify : IdentityResult → VerifyOut) : AuthOutcome :=
  match transport (formatUrl (validationRequestUrl strat ticket serviceUrl)) with
  | .error e => .error e
  | .ok body =>
    match parseResponse (parseCasXml body) with
    | .error e => .error e
    | .ok username =>
      verified (verify { status := true, user := username, ticket := ticket })

/-- The query fields read by `pgtCallbackHandler`. -/
structure PgtQuery where
  pgtIou : Option String
  pgtId : Option String

/-- `pgtCallbackHandler` (routeHandlers.js lines 108-114) over the
process-wide registry `server.locals.secret`, embedded as a map from
`pgtIou` keys to stored `pgtId` values (a JavaScript object keyed by
strings).  Returns the updated registry and the response body.  The guard is
`req.query.pgtIou !== undefined`, so an empty-string `pgtIou` still records;
storing an `undefined` `pgtId` leaves the key unresolvable by value, like the
JavaScript assignment. -/
def pgtCallbackHandler (query : PgtQuery) (secret : String → Option String) :
    (String → Option String) × String :=
  match query.pgtIou with
  | some iou => (fun k => if k = iou then query.pgtId else secret k, "OK")
  | none => (secret, "OK")

/-! Concrete fixtures: `xml2js.parseString` outputs for the synthetic CAS
bodies exercised below, and sample strategies, requests and sessions. -/

/-- Parse of a CAS success body whose nested `cas:user` is `abc123`. -/
def casSuccessParsed : JsVal :=
  .obj [("cas:serviceResponse", .obj [("cas:authenticationSuccess",
    .arr [.obj [("cas:user", .arr [.str "abc123"])]])])]

/-- Parse of a CAS failure body whose reason text is `INVALID_TICKET` (the
element text lands under `_` because the element also carries a `code`
attribute). -/
def casFailureParsed : JsVal :=
  .obj [("cas:serviceResponse", .obj [("cas:authenticationFailure",
    .arr [.obj [("_", .str "INVALID_TICKET"),
                ("$", .obj [("code", .str "INVALID_TICKET")])]])])]

/-- Parse of an envelope carrying neither an authentication-failure nor an
authentication-success branch (only the namespace attribute). -/
def casEmptyEnvelopeParsed : JsVal :=
  .obj [("cas:serviceResponse",
    .obj [("$", .obj [("xmlns:cas", .str "http://www.yale.edu/tp/cas")])])]

/-- Parse of a non-CAS body (`<html></html>`): no `cas:serviceResponse`
envelope at the root. -/
def nonCasParsed : JsVal := .obj [("html", .str "")]

/-- Parse of an envelope carrying both a failure branch with reason text and
a success branch with a username. -/
def bothBranchesParsed (reason user : String) : JsVal :=
  .obj [("cas:serviceResponse", .obj
    [("cas:authenticationFailure", .arr [.obj [("_", .str reason)]]),
     ("cas:authenticationSuccess", .arr [.obj [("cas:user", .arr [.str user])]])])]

/-- The strategy built by `new GatewayStrategy({casUrl: 'https://cas.example'},
verify)` with a callable `verify`. -/
def defaultStrategy : Strategy :=
  { name := "cas-gateway"
    anonymous := "anonymous-user"
    maxAttempts := 2
    casUrl := "https://cas.example"
    loginUrl := { base := "https://cas.example/login", search := none, query := [] }
    serviceValidateUrl :=
      { base := "https://cas.example/serviceValidate", search := none, query := [] } }

/-- The strategy built with `maxAttempts: 3` on the same CAS URL. -/
def maxThreeStrategy : Strategy :=
  { defaultStrategy with maxAttempts := 3 }

/-- A strategy whose stored login URL still carries a stale search string and
query (the situation the `delete loginUrl.search` in `authenticate` guards
against). -/
def staleLoginUrlStrategy : Strategy :=
  { defaultStrategy with
    loginUrl := { base := "https://cas.example/login", search := some "?ticket=stale",
                  query := [("ticket", "stale")] } }

/-- A ticket-less request for `http://host.example/protected`. -/
def plainRequest : Req :=
  { protocol := "http", host := "host.example", pathname := "/protected", query := [] }

/-- A request returning from the SSO server with a service ticket and a
`nextUrl` parameter. -/
def ticketRequest : Req :=
  { protocol := "http", host := "host.example", pathname := "/protected"
    query := [("nextUrl", "/page"), ("ticket", "ST-123")] }

/-- C1: the claim reads the attempt ceiling from the configured
`maxAttempts`.  The code validates and stores `maxAttempts` but
`authenticate` compares `req.session.gatewayAttempts === 2` against the
literal `2`: with `maxAttempts = 3` and the counter at `2`, the third
ticket-less call returns anonymous success instead of the third redirect the
claim requires, and from a counter of `3` the code would still redirect,
pushing the counter to `4`. -/
theorem c1_ceiling_is_hardcoded_two :
    mkGatewayStrategy { casUrl := "https://cas.example", maxAttempts := some 3 } true
      = .ok maxThreeStrategy ∧
    authenticate maxThreeStrategy plainRequest { gatewayAttempts := some 2 }
      = (.success "anonymous-user", { gatewayAttempts := some 2 }) ∧
    (authenticate maxThreeStrategy plainRequest { gatewayAttempts := some 3 }).2
      = { gatewayAttempts := some 4 } :=
  ⟨rfl, rfl, rfl⟩

/-- C2: `parseResponse` classifies the parsed CAS bodies as claimed: nested
user `abc123` yields exactly `abc123`; a failure reason `INVALID_TICKET`
yields an error with exactly that message; an envelope with neither branch
yields `No username found`; a body without a `cas:serviceResponse` envelope
yields `Badly formatted response`. -/
theorem c2_parse_classification :
    parseResponse (.ok casSuccessParsed) = .ok (.str "abc123") ∧
    parseResponse (.ok casFailureParsed) = .error "INVALID_TICKET" ∧
    parseResponse (.ok casEmptyEnvelopeParsed) = .error "No username found" ∧
    parseResponse (.ok nonCasParsed) = .error "Badly formatted response" :=
  ⟨rfl, rfl, rfl, rfl⟩

/-- Characters-level key extraction: if `l ++ '=' :: m` spells `nextUrl=`,
then `l` spells `nextUrl`. -/
lemma eqCharList_key : ∀ (l m : List Char),
    l ++ '=' :: m = ['n', 'e', 'x', 't', 'U', 'r', 'l', '='] →
    l = ['n', 'e', 'x', 't', 'U', 'r', 'l'] := by
  intro l m h
  rcases l with _|⟨c1,_|⟨c2,_|⟨c3,_|⟨c4,_|⟨c5,_|⟨c6,_|⟨c7,_|⟨c8,l⟩⟩⟩⟩⟩⟩⟩⟩ <;> simp_all

/-- A single `key=value` pair can only print as `nextUrl=` when its key is
`nextUrl`. -/
lemma joinPair_key {k v : String} (h : k ++ "=" ++ v = "nextUrl=") : k = "nextUrl" := by
  have hd : k.data ++ '=' :: v.data = "nextUrl=".data := by
    have h2 := congrArg String.data h
    have he : ("=" : String).data = ['='] := rfl
    simpa [String.data_append, he] using h2
  have := eqCharList_key k.data v.data (by simpa using hd)
  exact String.ext this

/-- A non-empty stringified query without a `nextUrl` key never prints as
`nextUrl=`: a single pair would need the key `nextUrl`, and two or more pairs
contain a `&` that `nextUrl=` lacks. -/
lemma joinPairs_ne_nextUrl : ∀ (q : List (String × String)),
    q.lookup "nextUrl" = none → q ≠ [] → joinPairs q ≠ "nextUrl=" := by
  intro q hl hne hE
  match q, hne with
  | [p], _ =>
    have hk : p.1 = "nextUrl" := joinPair_key (by simpa [joinPairs] using hE)
    simp [List.lookup, hk] at hl
  | p :: q' :: rest, _ =>
    have hm : '&' ∈ (joinPairs (p :: q' :: rest)).data := by
      simp [joinPairs, String.data_append, List.mem_append]
    rw [hE] at hm
    exact absurd hm (by decide)

/-- C3: for every parsed response whose envelope carries both an
authentication-failure element with (non-empty) reason text and an
authentication-success element with a (non-empty) username, `parseResponse`
returns the failure outcome carrying the failure reason: the failure branch
is checked before the success branch and the outcomes are exclusive. -/
theorem c3_failure_checked_before_success (reason user : String)
    (hr : reason ≠ "") (hu : user ≠ "") :
    parseResponse (.ok (bothBranchesParsed reason user)) = .error reason := by
  simp [parseResponse, bothBranchesParsed, _prop, _head, JsVal.truthy, JsVal.get1,
    JsVal.jsToString, List.lookup, hr]

/-- Witness for C3 at the concrete reason `INVALID_TICKET` and user
`abc123`. -/
theorem c3_failure_checked_before_success_witness :
    parseResponse (.ok (bothBranchesParsed "INVALID_TICKET" "abc123"))
      = .error "INVALID_TICKET" :=
  c3_failure_checked_before_success "INVALID_TICKET" "abc123" (by decide) (by decide)

/-- C4: the `service` query parameter of the serviceValidate request is the
original request URL rebuilt with every query parameter stripped except
`nextUrl`, and every key of the rebuilt query is `nextUrl` — in particular no
`ticket` key survives, whatever the triggering request's query contained. -/
theorem c4_service_param_drops_query_except_nextUrl
    (strat : Strategy) (ticket : String) (u : UrlObj) :
    (validationRequestUrl strat ticket u).query.lookup "service"
      = some (formatUrl ⟨u.base, none, [("nextUrl", (u.query.lookup "nextUrl").getD "")]⟩) ∧
    (∀ p ∈ (rebuiltServiceUrl u).query, p.1 = "nextUrl") ∧
    (rebuiltServiceUrl u).query.lookup "ticket" = none := by
  refine ⟨?_, ?_, ?_⟩
  · simp [validationRequestUrl, rebuiltServiceUrl, List.lookup]
  · simp [rebuiltServiceUrl]
  · simp [rebuiltServiceUrl, List.lookup]

/-- Witness for C4 at a ticket-bearing request whose URL carried both a
`ticket` and a `nextUrl` parameter. -/
theorem c4_service_param_drops_query_except_nextUrl_witness :
    (validationRequestUrl defaultStrategy "ST-123" ticketRequest.serviceUrlObj).query.lookup
        "service"
      = some (formatUrl ⟨"http://host.example/protected", none, [("nextUrl", "/page")]⟩) ∧
    (("nextUrl", "/page") : String × String).1 = "nextUrl" :=
  ⟨(c4_service_param_drops_query_except_nextUrl defaultStrategy "ST-123"
      ticketRequest.serviceUrlObj).1,
   (c4_service_param_drops_query_except_nextUrl defaultStrategy "ST-123"
      ticketRequest.serviceUrlObj).2.1 ("nextUrl", "/page") (by decide)⟩

/-- C5: every request with a non-empty `ticket` query parameter makes
`authenticate` set the session counter to `0`, whatever its prior value, and
hand control to `validateService` with the ticket and the request's derived
service URL; the returned action does not depend on the counter. -/
theorem c5_ticket_resets_counter_and_validates (strat : Strategy) (req : Req)
    (session : Session) (t : String)
    (hq : req.query.lookup "ticket" = some t) (ht : t ≠ "") :
    authenticate strat req session
      = (.validate t req.serviceUrlObj, { gatewayAttempts := some 0 }) := by
  simp [authenticate, hq, optTruthy, ht]

/-- Witness for C5 at a concrete ticket request and a session whose counter
previously stood at `7`. -/
theorem c5_ticket_resets_counter_and_validates_witness :
    authenticate defaultStrategy ticketRequest { gatewayAttempts := some 7 }
      = (.validate "ST-123" ticketRequest.serviceUrlObj, { gatewayAttempts := some 0 }) :=
  c5_ticket_resets_counter_and_validates defaultStrategy ticketRequest
    { gatewayAttempts := some 7 } "ST-123" rfl (by decide)

/-- C6: in `validateService`, a transport error propagates to the error
outcome; a parser error propagates to the error outcome; a body without the
envelope yields the malformed-response error; after a structurally valid
success, an error from the verification callback propagates to the error
outcome, a falsy resolved user yields the fail outcome with the callback's
info, and a truthy user yields success with that user and info. -/
theorem c6_validation_error_propagation :
    (∀ (strat : Strategy) (t : String) (u : UrlObj)
        (parse : String → Except String JsVal) (verify : IdentityResult → VerifyOut)
        (e : String),
      validateService strat t u (fun _ => .error e) parse verify = .error e) ∧
    (∀ (strat : Strategy) (t : String) (u : UrlObj) (body e : String)
        (verify : IdentityResult → VerifyOut) (parse : String → Except String JsVal),
      parse body = .error e →
      validateService strat t u (fun _ => .ok body) parse verify = .error e) ∧
    (∀ (strat : Strategy) (t : String) (u : UrlObj) (body : String) (r : JsVal)
        (parse : String → Except String JsVal) (verify : IdentityResult → VerifyOut),
      parse body = .ok r → (_prop r "cas:serviceResponse").truthy = false →
      validateService strat t u (fun _ => .ok body) parse verify
        = .error "Badly formatted response") ∧
    (∀ (strat : Strategy) (t : String) (u : UrlObj) (body : String)
        (parse : String → Except String JsVal) (uname : JsVal) (e : String)
        (user info : JsVal),
      parseResponse (parse body) = .ok uname →
      validateService strat t u (fun _ => .ok body) parse (fun _ => ⟨some e, user, info⟩)
        = .error e) ∧
    (∀ (strat : Strategy) (t : String) (u : UrlObj) (body : String)
        (parse : String → Except String JsVal) (uname : JsVal) (user info : JsVal),
      parseResponse (parse body) = .ok uname → user.truthy = false →
      validateService strat t u (fun _ => .ok body) parse (fun _ => ⟨none, user, info⟩)
        = .fail info) ∧
    (∀ (strat : Strategy) (t : String) (u : UrlObj) (body : String)
        (parse : String → Except String JsVal) (uname : JsVal) (user info : JsVal),
      parseResponse (parse body) = .ok uname → user.truthy = true →
      validateService strat t u (fun _ => .ok body) parse (fun _ => ⟨none, user, info⟩)
        = .success user info) := by
  refine ⟨?_, ?_, ?_, ?_, ?_, ?_⟩
  · intro strat t u parse verify e
    simp [validateService]
  · intro strat t u body e verify parse h
    simp [validateService, parseResponse, h]
  · intro strat t u body r parse verify h h2
    simp [validateService, parseResponse, h, h2]
  · intro strat t u body parse uname e user info h
    simp [validateService, h, verified]
  · intro strat t u body parse uname user info h hu
    simp [validateService, h, verified, hu]
  · intro strat t u body parse uname user info h hu
    simp [validateService, h, verified, hu]

/-- Witness for C6: a concrete transport failure ends in the error outcome, a
concrete accepted validation in success, and a concrete declined verification
in fail. -/
theorem c6_validation_error_propagation_witness :
    validateService defaultStrategy "ST-123" plainRequest.serviceUrlObj
      (fun _ => .error "ECONNREFUSED") (fun _ => .ok .null) (fun _ => ⟨none, .null, .null⟩)
      = .error "ECONNREFUSED" ∧
    validateService defaultStrategy "ST-123" plainRequest.serviceUrlObj
      (fun _ => .ok "body") (fun _ => .ok casSuccessParsed)
      (fun _ => ⟨none, .str "abc123", .null⟩)
      = .success (.str "abc123") .null ∧
    validateService defaultStrategy "ST-123" plainRequest.serviceUrlObj
      (fun _ => .ok "body") (fun _ => .ok casSuccessParsed)
      (fun _ => ⟨none, .null, .str "denied"⟩)
      = .fail (.str "denied") :=
  ⟨c6_validation_error_propagation.1 defaultStrategy "ST-123" plainRequest.serviceUrlObj _ _ _,
   c6_validation_error_propagation.2.2.2.2.2 defaultStrategy "ST-123"
     plainRequest.serviceUrlObj "body" _ (.str "abc123") (.str "abc123") .null rfl rfl,
   c6_validation_error_propagation.2.2.2.2.1 defaultStrategy "ST-123"
     plainRequest.serviceUrlObj "body" _ (.str "abc123") .null (.str "denied") rfl rfl⟩

/-- C7 counterexample: a zero `maxAttempts` does not raise — `0` is falsy, so
`options.maxAttempts || defaults.maxAttempts` replaces it with the default
`2` and construction yields a usable strategy, contradicting the claim that a
zero attempt ceiling fails with a TypeError. -/
theorem c7_zero_maxAttempts_constructs :
    mkGatewayStrategy { casUrl := "https://cas.example", maxAttempts := some 0 } true
      = .ok defaultStrategy := rfl

/-- C7 (amended): construction with an empty CAS URL, a non-callable verify,
or a negative `maxAttempts` fails with a TypeError and yields no strategy,
while a zero `maxAttempts` is silently replaced by the default `2` and
behaves exactly as an omitted `maxAttempts`. -/
theorem c7_construction_guards :
    (∀ opts : Options,
      mkGatewayStrategy opts false = .error "GatewayStrategy requires a verify callback") ∧
    (∀ (opts : Options) (vfn : Bool), opts.casUrl = "" →
      ∀ s, mkGatewayStrategy opts vfn ≠ .ok s) ∧
    (∀ (opts : Options) (vfn : Bool) (n : Int), opts.maxAttempts = some n → n < 0 →
      ∀ s, mkGatewayStrategy opts vfn ≠ .ok s) ∧
    (∀ (opts : Options) (vfn : Bool), opts.maxAttempts = some 0 →
      mkGatewayStrategy opts vfn = mkGatewayStrategy { opts with maxAttempts := none } vfn) := by
  refine ⟨?_, ?_, ?_, ?_⟩
  · intro opts
    simp [mkGatewayStrategy]
  · intro opts vfn h s
    simp [mkGatewayStrategy, h]
    split_ifs
    all_goals simp
  · intro opts vfn n hn hneg s
    simp [mkGatewayStrategy, hn, jsOrInt]
    split_ifs
    all_goals simp_all
    all_goals omega
  · intro opts vfn h
    simp [mkGatewayStrategy, h, jsOrInt]

/-- Witness for C7 (amended) at concrete option sets for each guard. -/
theorem c7_construction_guards_witness :
    mkGatewayStrategy { casUrl := "https://cas.example" } false
      = .error "GatewayStrategy requires a verify callback" ∧
    mkGatewayStrategy { casUrl := "" } true ≠ .ok defaultStrategy ∧
    mkGatewayStrategy { casUrl := "https://cas.example", maxAttempts := some (-1) } true
      ≠ .ok defaultStrategy ∧
    mkGatewayStrategy { casUrl := "https://cas.example", maxAttempts := some 0 } true
      = mkGatewayStrategy { casUrl := "https://cas.example" } true :=
  ⟨c7_construction_guards.1 _,
   c7_construction_guards.2.1 _ true rfl defaultStrategy,
   c7_construction_guards.2.2.1 _ true (-1) rfl (by decide) defaultStrategy,
   c7_construction_guards.2.2.2 { casUrl := "https://cas.example", maxAttempts := some 0 }
     true rfl⟩

/-- C8: with a defined `pgtIou` the handler records the `pgtIou → pgtId` pair
and answers `OK`; with `pgtIou` absent it records nothing and still answers
`OK`; recording the same pair twice leaves the registry exactly as one
recording does, and recording two different ids under one iou leaves the
latest retrievable. -/
theorem c8_pgt_registry_record_semantics :
    (∀ (iou : String) (id : Option String) (secret : String → Option String),
      (pgtCallbackHandler ⟨some iou, id⟩ secret).1 iou = id ∧
      (pgtCallbackHandler ⟨some iou, id⟩ secret).2 = "OK") ∧
    (∀ (id : Option String) (secret : String → Option String),
      pgtCallbackHandler ⟨none, id⟩ secret = (secret, "OK")) ∧
    (∀ (iou id : String) (secret : String → Option String) (k : String),
      (pgtCallbackHandler ⟨some iou, some id⟩
          (pgtCallbackHandler ⟨some iou, some id⟩ secret).1).1 k
        = (pgtCallbackHandler ⟨some iou, some id⟩ secret).1 k) ∧
    (∀ (iou id1 id2 : String) (secret : String → Option String),
      (pgtCallbackHandler ⟨some iou, some id2⟩
          (pgtCallbackHandler ⟨some iou, some id1⟩ secret).1).1 iou = some id2) := by
  refine ⟨?_, ?_, ?_, ?_⟩
  · intro iou id secret
    simp [pgtCallbackHandler]
  · intro id secret
    simp [pgtCallbackHandler]
  · intro iou id secret k
    simp only [pgtCallbackHandler]
    split_ifs
    all_goals rfl
  · intro iou id1 id2 secret
    simp [pgtCallbackHandler]

/-- C9: every gateway redirect goes to the stored login URL's base with a
query of exactly `gateway=true` and `service=<current request URL>`:
whatever search string or query the parsed login URL carried beforehand is
dropped before the fresh pair is appended. -/
theorem c9_redirect_has_only_fresh_params (strat : Strategy) (req : Req)
    (session : Session)
    (hticket : optTruthy (req.query.lookup "ticket") = false)
    (hceil : session.gatewayAttempts ≠ some 2) :
    (authenticate strat req session).1
      = .redirect (strat.loginUrl.base ++ "?gateway=true&service=" ++ req.serviceUrlString) := by
  simp [authenticate, hticket, hceil, formatUrl, formatQuery, joinPairs]
  apply String.ext
  simp [String.data_append, List.append_assoc]

/-- Witness for C9 at a strategy whose stored login URL carries a stale
`?ticket=stale` search string: the redirect contains only the fresh pair. -/
theorem c9_redirect_has_only_fresh_params_witness :
    (authenticate staleLoginUrlStrategy plainRequest { gatewayAttempts := none }).1
      = .redirect "https://cas.example/login?gateway=true&service=http://host.example/protected" :=
  c9_redirect_has_only_fresh_params staleLoginUrlStrategy plainRequest
    { gatewayAttempts := none } rfl (by decide)

/-- C10: the rebuilt service URL always carries a `nextUrl` key — with the
original `nextUrl` value when one was present, with the empty value
otherwise — and when the original request URL carried no `nextUrl` parameter
the rebuilt URL ends in `?nextUrl=` and is not byte-identical to the
originally presented service URL. -/
theorem c10_service_always_has_nextUrl :
    (∀ u : UrlObj, (rebuiltServiceUrl u).query.lookup "nextUrl"
        = some ((u.query.lookup "nextUrl").getD "")) ∧
    (∀ req : Req, req.query.lookup "nextUrl" = none →
      formatUrl (rebuiltServiceUrl req.serviceUrlObj)
          = req.serviceUrlObj.base ++ "?nextUrl=" ∧
      formatUrl (rebuiltServiceUrl req.serviceUrlObj) ≠ req.serviceUrlString) := by
  constructor
  · intro u
    simp [rebuiltServiceUrl, List.lookup]
  · intro req h
    have hfmt : formatUrl (rebuiltServiceUrl req.serviceUrlObj)
        = req.serviceUrlObj.base ++ "?nextUrl=" := by
      simp [rebuiltServiceUrl, formatUrl, Req.serviceUrlObj, h, formatQuery, joinPairs]
    refine ⟨hfmt, ?_⟩
    intro hEq
    rw [hfmt] at hEq
    have hd := congrArg String.data hEq
    simp only [Req.serviceUrlString, Req.originalUrl, Req.serviceUrlObj,
      String.data_append, List.append_assoc] at hd
    simp only [List.append_right_inj] at hd
    rcases hq : req.query with _ | ⟨p, ps⟩
    · rw [hq] at hd
      simp [formatQuery] at hd
    · rw [hq] at hd
      have hd2 : ("?nextUrl=" : String).data = ('?' :: (joinPairs (p :: ps)).data) := by
        simpa [formatQuery, String.data_append] using hd
      have hI : ("nextUrl=" : String).data = (joinPairs (p :: ps)).data := by
        simpa using hd2
      have hJ : joinPairs (p :: ps) = "nextUrl=" := (String.ext hI).symm
      rw [hq] at h
      exact joinPairs_ne_nextUrl (p :: ps) h (by simp) hJ

/-- Witness for C10 at a request without any query: the service parameter is
`http://host.example/protected?nextUrl=` while the presented service URL was
`http://host.example/protected`. -/
theorem c10_service_always_has_nextUrl_witness :
    formatUrl (rebuiltServiceUrl plainRequest.serviceUrlObj)
        = plainRequest.serviceUrlObj.base ++ "?nextUrl=" ∧
    formatUrl (rebuiltServiceUrl plainRequest.serviceUrlObj) ≠ plainRequest.serviceUrlString :=
  c10_service_always_has_nextUrl.2 plainRequest rfl
